import Mathlib

/-!
# Verification of the calendar-assistant event pipeline

Shallow embedding of the TypeScript sources of the `calendar-assistant`
repository: the validator (`src/lib/calendar/validator.ts`), the conflict
detector (`src/lib/calendar/conflict-detector.ts`), the creator
(`src/lib/calendar/creator.ts`), the LLM parser wrapper
(`src/lib/calendar/parser.ts`), the undo store (`src/lib/undo-store.ts`)
and the Telegram update handler (`src/bot.ts`).

Modelling conventions:
* JavaScript numbers are embedded as `Int` (all values reached here are
  integral); machine-level floating point never matters for these
  functions except the parser's `confidence`, embedded as `ℚ` (the
  comparison against the literal `0.7` is exact at every value the
  claims exercise).
* A JavaScript `Date` is its millisecond timestamp (`Int`); civil
  calendar arithmetic uses the standard days-from-civil/civil-from-days
  algorithms, which agree with ECMAScript `MakeDay`'s field
  normalisation.  The process-local timezone is passed explicitly as
  `tzOffMin` (minutes to add to UTC ms to obtain the local-midnight
  instant; the reference deployment runs at UTC-3, `tzOffMin = 180`).
* `string | null` fields become `Option String`; JavaScript truthiness
  on them (`!s`) is `strTruthy` (`none` and `""` are falsy).
* A JavaScript `Map` is an association list with unique keys (the only
  states reachable through `set`/`delete`); `mapSet`, `mapGet`,
  `mapDelete` mirror its operations.
* `async` functions that consult an external collaborator take the
  collaborator's outcome as an explicit argument (`Except` for a call
  that may fail, a function-valued environment for the bot).
-/

namespace CalendarAssistant

/-- Decimal value of a digit list (helper for `jsNum`). -/
def digitsToNat : List Char → Nat → Nat
  | [], acc => acc
  | c :: rest, acc => digitsToNat rest (acc * 10 + (c.toNat - 48))

/-- Source `Number(s)` for the digit-only strings produced by the format guards
(`HH`, `MM`, `YYYY` pieces); non-numeric strings (which would give `NaN`
in JS) are mapped to 0 and never reach the verified paths. -/
def jsNum (s : String) : Nat :=
  if !s.data.isEmpty && s.data.all Char.isDigit then digitsToNat s.data 0 else 0

/-- Split a character list at every occurrence of `sep` (helper for
`splitOnChar`). -/
def splitOnCharAux (sep : Char) : List Char → List Char → List (List Char)
  | [], acc => [acc.reverse]
  | c :: rest, acc =>
    if c == sep then acc.reverse :: splitOnCharAux sep rest []
    else splitOnCharAux sep rest (c :: acc)

/-- Source `s.split(sep)` for a single-character separator. -/
def splitOnChar (sep : Char) (s : String) : List String :=
  (splitOnCharAux sep s.data []).map String.mk

/-- Whitespace for `String.prototype.trim` (the sources only ever trim
ASCII whitespace). -/
def isJsSpace (c : Char) : Bool :=
  c == ' ' || c == '\t' || c == '\n' || c == '\r'

/-- Source `s.trim()`. -/
def strTrim (s : String) : String :=
  String.mk (((s.data.dropWhile isJsSpace).reverse.dropWhile isJsSpace).reverse)

/-- Whether `needle` occurs in the list (helper for `strContains`). -/
def listContainsChars (needle : List Char) : List Char → Bool
  | [] => needle.isEmpty
  | c :: rest => needle.isPrefixOf (c :: rest) || listContainsChars needle rest

/-- Source `s.length` (the titles involved are plain BMP text, where the
UTF-16 length is the character count). -/
def strLen (s : String) : Nat :=
  s.data.length

/-- Source `list.join(sep)`. -/
def strJoin (sep : String) : List String → String
  | [] => ""
  | [x] => x
  | x :: xs => x ++ sep ++ strJoin sep xs

/-- Source `s.startsWith(pre)`. -/
def strStartsWith (s pre : String) : Bool :=
  pre.data.isPrefixOf s.data

/-- Source `s.slice(n)` / the remainder after `replace(prefix, '')`. -/
def strDrop (s : String) (n : Nat) : String :=
  String.mk (s.data.drop n)

/-- Source `Number(s)` as an `Int` (JS numbers are embedded as `Int`). -/
def jsInt (s : String) : Int :=
  (jsNum s : Int)

/-- Source `String(n).padStart(2, "0")`. -/
def pad2 (n : Int) : String :=
  let s := toString n
  if strLen s < 2 then "0" ++ s else s

/-- JS truthiness of a `string | null` value: `null` and `""` are falsy. -/
def strTruthy (o : Option String) : Bool :=
  match o with
  | none => false
  | some s => !(s == "")

/-- Source `a || b` on `string | null` values: keep `a` when truthy, else `b`. -/
def jsOrNull (o : Option String) : Option String :=
  match o with
  | none => none
  | some s => if s == "" then none else some s

/-- Source `n || null` on a `number | null` value: `0` (falsy) collapses to `null`. -/
def jsOrNullInt (o : Option Int) : Option Int :=
  match o with
  | none => none
  | some n => if n == 0 then none else some n

/-- Source `s.includes(sub)`. -/
def strContains (s sub : String) : Bool :=
  listContainsChars sub.data s.data

/-- A civil (proleptic Gregorian) calendar date, as read back from a JS
`Date` via `getFullYear` / `getMonth() + 1` / `getDate`. -/
structure Civil where
  year : Int
  month : Int
  day : Int
deriving DecidableEq, Repr

/-- Days since 1970-01-01 of a civil date; day/month overflow normalises
exactly as ECMAScript `MakeDay` does (e.g. Feb 30 ↦ Mar 2). -/
def daysFromCivil (c : Civil) : Int :=
  let y := if c.month ≤ 2 then c.year - 1 else c.year
  let era := Int.fdiv y 400
  let yoe := y - era * 400
  let mp := if c.month > 2 then c.month - 3 else c.month + 9
  let doy := Int.fdiv (153 * mp + 2) 5 + c.day - 1
  let doe := yoe * 365 + Int.fdiv yoe 4 - Int.fdiv yoe 100 + doy
  era * 146097 + doe - 719468

/-- Civil date of a days-since-epoch count (inverse of `daysFromCivil`
on canonical dates). -/
def civilFromDays (z0 : Int) : Civil :=
  let z := z0 + 719468
  let era := Int.fdiv z 146097
  let doe := z - era * 146097
  let yoe := Int.fdiv (doe - Int.fdiv doe 1460 + Int.fdiv doe 36524 - Int.fdiv doe 146096) 365
  let y := yoe + era * 400
  let doy := doe - (365 * yoe + Int.fdiv yoe 4 - Int.fdiv yoe 100)
  let mp := Int.fdiv (5 * doy + 2) 153
  let d := doy - Int.fdiv (153 * mp + 2) 5 + 1
  let m := if mp < 10 then mp + 3 else mp - 9
  { year := if m ≤ 2 then y + 1 else y, month := m, day := d }

def msPerDay : Int := 86400000

def msPerMin : Int := 60000

/-- Source `Map.prototype.get`: the value stored under `k`, if any. -/
def mapGet {α : Type} : List (String × α) → String → Option α
  | [], _ => none
  | p :: rest, k => if p.1 == k then some p.2 else mapGet rest k

/-- Source `Map.prototype.delete`: drop the entry stored under `k`.  (JS map
keys are unique, so removing every occurrence agrees with the JS map on
all reachable states.) -/
def mapDelete {α : Type} (m : List (String × α)) (k : String) : List (String × α) :=
  m.filter (fun p => !(p.1 == k))

/-- Source `Map.prototype.set`: replace the entry under `k` in place, or
append a fresh one (JS map keys are unique, so replacing the first match
agrees with the JS map on all reachable states). -/
def mapSet {α : Type} : List (String × α) → String → α → List (String × α)
  | [], k, v => [(k, v)]
  | p :: rest, k, v => if p.1 == k then (k, v) :: rest else p :: mapSet rest k v

end CalendarAssistant

namespace CalendarAssistant.UndoStore

/-- Source `UndoState` from `src/lib/calendar/types.ts` (the optional
`telegram_message_id` is never read by the store). -/
structure UndoState where
  google_event_id : String
  calendar_id : String
  event_title : String
  created_at : Int
  undo_deadline : Int
deriving DecidableEq, Repr

/-- The store's backing `Map<string, UndoState>`. -/
abbrev UStore := List (String × UndoState)

def UNDO_WINDOW_MS : Int := 2 * 60 * 1000

/-- Source `UndoStore.add`: inserts the entry with a freshly computed deadline
(`created_at + UNDO_WINDOW_MS`); the input's own `undo_deadline` field is
ignored, mirroring the `Omit<UndoState, "undo_deadline">` parameter.  The
`setTimeout` eviction it schedules is a separate event not modelled here. -/
def add (store : UStore) (frontendEventId : String) (state : UndoState) : UStore :=
  mapSet store frontendEventId
    { state with undo_deadline := state.created_at + UNDO_WINDOW_MS }

/-- Source `UndoStore.consume` at instant `now` (`Date.now()`); returns the
consumed record (if any) and the store afterwards. -/
def consume (store : UStore) (now : Int) (frontendEventId : String) :
    Option UndoState × UStore :=
  match mapGet store frontendEventId with
  | none => (none, store)
  | some entry =>
    if entry.undo_deadline < now then
      (none, mapDelete store frontendEventId)
    else
      (some entry, mapDelete store frontendEventId)

/-- Source `UndoStore.peek` at instant `now`; returns the record (if alive) and
the store afterwards. -/
def peek (store : UStore) (now : Int) (frontendEventId : String) :
    Option UndoState × UStore :=
  match mapGet store frontendEventId with
  | none => (none, store)
  | some entry =>
    if entry.undo_deadline < now then
      (none, mapDelete store frontendEventId)
    else
      (some entry, store)

/-- Source `UndoStore.isAlive`. -/
def isAlive (store : UStore) (now : Int) (frontendEventId : String) : Bool :=
  (peek store now frontendEventId).1 != none

/-- Source `UndoStore.remainingSeconds`: `Math.max(0, Math.ceil((deadline - now) / 1000))`. -/
def remainingSeconds (store : UStore) (now : Int) (frontendEventId : String) : Int :=
  match (peek store now frontendEventId).1 with
  | none => 0
  | some entry => max 0 (Int.fdiv (entry.undo_deadline - now + 999) 1000)

end CalendarAssistant.UndoStore

namespace CalendarAssistant

/-- Source `ParsedParticipant` from `types.ts`. -/
structure ParsedParticipant where
  name : String
  email : Option String
  resolved : Bool
deriving DecidableEq, Repr

inductive ParseStatus where
  | success
  | ambiguous
  | error
deriving DecidableEq, Repr

/-- Source `ParsedEvent` from `types.ts`. -/
structure ParsedEvent where
  status : ParseStatus
  confidence : ℚ
  title : Option String
  start_date : Option String
  start_time : Option String
  end_time : Option String
  duration_minutes : Option Int
  all_day : Bool
  participants : List ParsedParticipant
  description : Option String
  location : Option String
  ambiguities : List String
  raw_input : String
deriving DecidableEq, Repr

/-- Source `ValidatedEvent` from `types.ts`. -/
structure ValidatedEvent where
  title : String
  start_date : String
  start_time : Option String
  end_time : Option String
  duration_minutes : Option Int
  all_day : Bool
  participants : List ParsedParticipant
  description : Option String
  location : Option String
deriving DecidableEq, Repr

end CalendarAssistant

namespace CalendarAssistant.Validator

inductive VStatus where
  | valid
  | invalid
  | ambiguous
deriving DecidableEq, Repr

/-- Source `ValidationResult` from `validator.ts` (the union member
`clarification_needed` is never produced). -/
structure ValidationResult where
  valid : Bool
  status : VStatus
  errors : List String
  warnings : List String
  clarificationRequest : Option String := none
  correctedEvent : Option ValidatedEvent := none
deriving DecidableEq, Repr

/-- The `^\d\x7b4\x7d-\d\x7b2\x7d-\d\x7b2\x7d$` test inside `isValidDateFormat`. -/
def datePatternOk (date : String) : Bool :=
  match splitOnChar '-' date with
  | [a, b, c] =>
    strLen a == 4 && strLen b == 2 && strLen c == 2 &&
      a.data.all Char.isDigit && b.data.all Char.isDigit && c.data.all Char.isDigit
  | _ => false

/-- Source `date.split('-').map(Number)` destructured into `[year, month, day]`. -/
def dateComponents (date : String) : Int × Int × Int :=
  let c := (splitOnChar '-' date).map jsInt
  (c.getD 0 0, c.getD 1 0, c.getD 2 0)

/-- Source `isValidDateFormat`: pattern, component ranges, and the
`new Date(year, month - 1, day)` round-trip check (which rejects Feb 30
etc., since `Date` normalises the overflow to the next month). -/
def isValidDateFormat (date : String) : Bool :=
  if !datePatternOk date then false
  else
    let (y, m, d) := dateComponents date
    if m < 1 || m > 12 || d < 1 || d > 31 then false
    else
      let r := civilFromDays (daysFromCivil ⟨y, m, d⟩)
      r.year == y && r.month == m && r.day == d

/-- Source `isValidTimeFormat`: `^\d\x7b2\x7d:\d\x7b2\x7d$` with hour 0–23, minute 0–59. -/
def isValidTimeFormat (time : String) : Bool :=
  match splitOnChar ':' time with
  | [a, b] =>
    strLen a == 2 && strLen b == 2 && a.data.all Char.isDigit && b.data.all Char.isDigit &&
      jsInt a ≤ 23 && jsInt b ≤ 59
  | _ => false

structure DateRangeResult where
  valid : Bool
  retroactive : Bool := false
  tooFar : Bool := false
deriving DecidableEq, Repr

/-- Source `new Date(date)` on a `YYYY-MM-DD`-shaped string: UTC midnight of
that civil date; any other shape is an Invalid Date (`NaN`), whose
comparisons are all false. -/
def jsParseDateMs (date : String) : Option Int :=
  if datePatternOk date then
    let (y, m, d) := dateComponents date
    if 1 ≤ m && m ≤ 12 && 1 ≤ d && d ≤ 31 then
      some (daysFromCivil ⟨y, m, d⟩ * msPerDay)
    else none
  else none

/-- Source `eventDate.toDateString()` compared as the local civil date of the
instant `t`. -/
def localCivilOfMs (tzOffMin : Int) (t : Int) : Civil :=
  civilFromDays (Int.fdiv (t - tzOffMin * msPerMin) msPerDay)

/-- Source `validateDateRange`, with "today" (the local civil date at the
moment of the call) and the process timezone passed explicitly.
`today.setHours(0,0,0,0)` is the local-midnight instant of `today`;
`maxDate.setFullYear(y + 1)` keeps month/day and lets `Date` normalise. -/
def validateDateRange (today : Civil) (tzOffMin : Int) (date : String) : DateRangeResult :=
  let todayMs := daysFromCivil today * msPerDay + tzOffMin * msPerMin
  let maxMs := daysFromCivil ⟨today.year + 1, today.month, today.day⟩ * msPerDay
      + tzOffMin * msPerMin
  match jsParseDateMs date with
  | none => { valid := true }
  | some eventMs =>
    if eventMs < todayMs && localCivilOfMs tzOffMin eventMs != today then
      { valid := false, retroactive := true }
    else if eventMs > maxMs then
      { valid := false, tooFar := true }
    else
      { valid := true }

/-- Source `isTimeAfter`. -/
def isTimeAfter (endTime startTime : String) : Bool :=
  let e := (splitOnChar ':' endTime).map jsInt
  let s := (splitOnChar ':' startTime).map jsInt
  e.getD 0 0 * 60 + e.getD 1 0 > s.getD 0 0 * 60 + s.getD 1 0

/-- Source `isDurationConsistent` (5-minute tolerance). -/
def isDurationConsistent (startTime endTime : String) (durationMinutes : Int) : Bool :=
  let s := (splitOnChar ':' startTime).map jsInt
  let e := (splitOnChar ':' endTime).map jsInt
  let calculated := (e.getD 0 0 * 60 + e.getD 1 0) - (s.getD 0 0 * 60 + s.getD 1 0)
  (calculated - durationMinutes).natAbs ≤ 5

/-- Source `validateRequiredFields`: the errors pushed, in source order. -/
def validateRequiredFields (parsed : ParsedEvent) : List String :=
  (if strTrim (parsed.title.getD "") == "" then ["title_missing"] else []) ++
  (if !strTruthy parsed.start_date then ["date_missing"] else []) ++
  (if !parsed.all_day && !strTruthy parsed.start_time then ["time_missing"] else [])

/-- Source `validateFieldFormats`: (errors, warnings) pushed, in source order. -/
def validateFieldFormats (today : Civil) (tzOffMin : Int) (parsed : ParsedEvent) :
    List String × List String :=
  let fmtErrs :=
    (if strTruthy parsed.title &&
        (strLen (parsed.title.getD "") < 1 || strLen (parsed.title.getD "") > 100) then
      ["title_length_invalid"] else []) ++
    (if strTruthy parsed.start_date && !isValidDateFormat (parsed.start_date.getD "") then
      ["date_format_invalid"] else []) ++
    (if strTruthy parsed.start_time && !isValidTimeFormat (parsed.start_time.getD "") then
      ["time_format_invalid"] else []) ++
    (if strTruthy parsed.end_time && !isValidTimeFormat (parsed.end_time.getD "") then
      ["end_time_format_invalid"] else [])
  if strTruthy parsed.start_date then
    let dv := validateDateRange today tzOffMin (parsed.start_date.getD "")
    if !dv.valid then
      if dv.retroactive then (fmtErrs, ["date_retroactive_same_day"])
      else if dv.tooFar then (fmtErrs ++ ["date_too_far_future"], [])
      else (fmtErrs ++ ["date_out_of_range"], [])
    else (fmtErrs, [])
  else (fmtErrs, [])

/-- Source `validateLogicalConsistency`: (errors, warnings). -/
def validateLogicalConsistency (parsed : ParsedEvent) : List String × List String :=
  let errs :=
    if strTruthy parsed.start_time && strTruthy parsed.end_time &&
        !isTimeAfter (parsed.end_time.getD "") (parsed.start_time.getD "") then
      ["time_end_before_start"]
    else []
  let warns :=
    if strTruthy parsed.start_time && strTruthy parsed.end_time &&
        (match parsed.duration_minutes with | some n => !(n == 0) | none => false) &&
        !isDurationConsistent (parsed.start_time.getD "") (parsed.end_time.getD "")
          (parsed.duration_minutes.getD 0) then
      ["duration_mismatch_times"]
    else []
  (errs, warns)

/-- The per-ambiguity mapping inside `buildClarificationRequest`. -/
def clarifyAmbiguity (amb : String) : String :=
  if strContains amb "hora não específica" then "horário exato (ex: 14:30)?"
  else if strContains amb "data vaga" then "data específica (ex: 25/02)?"
  else amb

/-- Source `buildClarificationRequest`. -/
def buildClarificationRequest (ambiguities : List String) : String :=
  "Preciso de mais informações: " ++
    strJoin ", " (ambiguities.map clarifyAmbiguity) ++ "\n\nPode detalhar?"

/-- The `errorMessages` lookup table (`errorMessages[e] || e`). -/
def errorMessage (e : String) : String :=
  if e == "title_missing" then "Qual é o título do evento?"
  else if e == "date_missing" then "Que dia será? (ex: 25/02)"
  else if e == "time_missing" then "Que horário? (ex: 14:30)"
  else if e == "title_length_invalid" then "Título muito curto ou muito longo (máx 100 chars)"
  else if e == "date_format_invalid" then "Data em formato inválido"
  else if e == "time_format_invalid" then "Horário em formato inválido (use HH:MM)"
  else if e == "end_time_format_invalid" then "Hora final em formato inválido (use HH:MM)"
  else if e == "date_too_far_future" then "Data muito distante (máx 1 ano no futuro)"
  else if e == "date_out_of_range" then "Data inválida"
  else if e == "time_end_before_start" then "Hora final deve ser depois da hora inicial"
  else e

/-- Source `buildClarificationFromErrors`. -/
def buildClarificationFromErrors (errors : List String) : String :=
  let msgs := (errors.map errorMessage).filter (fun m => !(m == ""))
  "❌ Evento inválido:\n" ++
    strJoin "\n" (msgs.map (fun m => "• " ++ m)) ++ "\n\nPode revisar?"

/-- Source `buildValidatedEvent` (the `!` assertions are `getD ""`: those
fields were checked non-empty before this point). -/
def buildValidatedEvent (parsed : ParsedEvent) : ValidatedEvent :=
  { title := parsed.title.getD ""
    start_date := parsed.start_date.getD ""
    start_time := if parsed.all_day then none else parsed.start_time
    end_time := if parsed.all_day then none else parsed.end_time
    duration_minutes := parsed.duration_minutes
    all_day := parsed.all_day
    participants := parsed.participants
    description := parsed.description
    location := parsed.location }

/-- Source `validateParsedEvent`, the validator's entry point.  (`toLowerCase`
is embedded as `String.toLower`; the "data inválida" tags produced by
the parser are already lower-case.) -/
def validateParsedEvent (today : Civil) (tzOffMin : Int) (parsed : ParsedEvent) :
    ValidationResult :=
  if parsed.status = .error then
    let a := parsed.ambiguities.headD ""
    { valid := false, status := .invalid
      errors := [if a == "" then "Erro ao fazer parse do texto" else a], warnings := [] }
  else if !parsed.ambiguities.isEmpty then
    let invalidDateAmbiguities := parsed.ambiguities.filter (fun a =>
      strContains a.toLower "data inválida" || strContains a.toLower "invalid date")
    if !invalidDateAmbiguities.isEmpty then
      { valid := false, status := .invalid
        errors := invalidDateAmbiguities, warnings := [] }
    else
      { valid := false, status := .ambiguous, errors := [], warnings := []
        clarificationRequest := some (buildClarificationRequest parsed.ambiguities) }
  else
    let errs1 := validateRequiredFields parsed
    let fmt := validateFieldFormats today tzOffMin parsed
    let logic := validateLogicalConsistency parsed
    let errors := errs1 ++ fmt.1 ++ logic.1
    let warnings := fmt.2 ++ logic.2
    if !errors.isEmpty then
      { valid := false, status := .invalid, errors := errors, warnings := warnings
        clarificationRequest := some (buildClarificationFromErrors errors) }
    else
      { valid := true, status := .valid, errors := [], warnings := warnings
        correctedEvent := some (buildValidatedEvent parsed) }

end CalendarAssistant.Validator

namespace CalendarAssistant.ConflictDetector

/-- Source `CalendarEvent.start` / `.end` shape from `conflict-detector.ts`. -/
structure EventTime where
  dateTime : Option String := none
  date : Option String := none
deriving DecidableEq, Repr

/-- Source `CalendarEvent` from `conflict-detector.ts`. -/
structure CalendarEvent where
  id : String
  title : String
  start : EventTime
  «end» : EventTime
deriving DecidableEq, Repr

/-- Source `ConflictInfo`. -/
structure ConflictInfo where
  title : String
  start_time : String
  end_time : String
  calendar_event_id : String
  event_date : String
deriving DecidableEq, Repr

/-- Source `ConflictCheck`. -/
structure ConflictCheck where
  has_conflicts : Bool
  conflicts : List ConflictInfo
deriving DecidableEq, Repr

/-- Source `timeToMinutes`: `HH:MM` to minutes since midnight. -/
def timeToMinutes (time : String) : Int :=
  let parts := (splitOnChar ':' time).map jsInt
  parts.getD 0 0 * 60 + parts.getD 1 0

/-- Source `calculateEndTime`: start plus `durationMinutes || 0`. -/
def calculateEndTime (startTime : String) (durationMinutes : Option Int) : Int :=
  timeToMinutes startTime + durationMinutes.getD 0

/-- Source `isOverlapping`: strict half-open overlap, exact boundaries excluded. -/
def isOverlapping (start1 end1 start2 end2 : Int) : Bool :=
  start1 < end2 && start2 < end1

/-- Scan for the first match of the regex `T(\d\x7b2\x7d):(\d\x7b2\x7d)`. -/
def findTimeMatch : List Char → Option (Char × Char × Char × Char)
  | [] => none
  | c :: rest =>
    match c, rest with
    | 'T', a :: b :: ':' :: d :: e :: _ =>
      if a.isDigit && b.isDigit && d.isDigit && e.isDigit then some (a, b, d, e)
      else findTimeMatch rest
    | _, _ => findTimeMatch rest

/-- Source `extractTimeFromEvent`: `HH:MM` out of an RFC3339 `dateTime`. -/
def extractTimeFromEvent (timeObj : EventTime) : Option String :=
  match timeObj.dateTime with
  | none => none
  | some s =>
    if s == "" then none
    else
      match findTimeMatch s.data with
      | none => none
      | some (a, b, d, e) => some (String.mk [a, b] ++ ":" ++ String.mk [d, e])

/-- The per-event body of the `existingEvents.forEach` loop in
`findOverlappingEvents`: the conflict entry contributed by `evt`, if any. -/
def conflictFor (newEvent : ValidatedEvent) (newStart newEnd : Int)
    (evt : CalendarEvent) : Option ConflictInfo :=
  if !strTruthy evt.start.dateTime && !strTruthy evt.start.date then none
  else
    match extractTimeFromEvent evt.start, extractTimeFromEvent evt.«end» with
    | some existingStart, some existingEnd =>
      if isOverlapping newStart newEnd
          (timeToMinutes existingStart) (timeToMinutes existingEnd) then
        some { title := evt.title, start_time := existingStart
               end_time := existingEnd, calendar_event_id := evt.id
               event_date := newEvent.start_date }
      else none
    | _, _ => none

/-- Source `findOverlappingEvents`. -/
def findOverlappingEvents (newEvent : ValidatedEvent)
    (existingEvents : List CalendarEvent) : List ConflictInfo :=
  if !strTruthy newEvent.start_time || newEvent.all_day then []
  else
    let newStart := timeToMinutes (newEvent.start_time.getD "")
    let newEnd :=
      if strTruthy newEvent.end_time then timeToMinutes (newEvent.end_time.getD "")
      else calculateEndTime (newEvent.start_time.getD "") newEvent.duration_minutes
    existingEvents.filterMap (conflictFor newEvent newStart newEnd)

/-- Source `checkCalendarConflicts`; the outcome of the awaited
`fetchEventsForDate` call is passed in (`Except.error` when the fetch, or
anything else inside the `try`, throws). -/
def checkCalendarConflicts (event : ValidatedEvent)
    (fetched : Except String (List CalendarEvent)) : ConflictCheck :=
  match fetched with
  | .error _ => { has_conflicts := false, conflicts := [] }
  | .ok dayEvents =>
    if event.all_day then { has_conflicts := false, conflicts := [] }
    else
      let conflicts := findOverlappingEvents event dayEvents
      { has_conflicts := decide (conflicts.length > 0), conflicts := conflicts }

end CalendarAssistant.ConflictDetector

namespace CalendarAssistant.Creator

def OWNER_EMAIL : String := "jgcalice@gmail.com"

/-- Default of the `GOG_ACCOUNT` environment variable. -/
def GOG_ACCOUNT : String := "mepoupz@gmail.com"

def DEFAULT_CALENDAR_ID : String := GOG_ACCOUNT

/-- Source `CalendarCreateRequest` from `types.ts`. -/
structure CalendarCreateRequest where
  event : ValidatedEvent
  event_id : String
  calendar_id : String
  owner_email : String
deriving DecidableEq, Repr

/-- Source `computeEndTime` from `creator.ts`: start plus duration, hour
reduced modulo 24 (`Math.floor` is `Int.fdiv`, JS `%` is `Int.tmod`). -/
def computeEndTime (startTime : String) (durationMinutes : Int) : String :=
  let parts := (splitOnChar ':' startTime).map jsInt
  let totalMinutes := parts.getD 0 0 * 60 + parts.getD 1 0 + durationMinutes
  let endH := (Int.fdiv totalMinutes 60).tmod 24
  let endM := totalMinutes.tmod 60
  pad2 endH ++ ":" ++ pad2 endM

/-- Source `buildRFC3339`: the Y-M-D components come from a `Date` built
from the composite local string (normalising as `Date` does), the clock
components from the time string directly, the offset is the fixed `-03:00`. -/
def buildRFC3339 (date time : String) : String :=
  let dc := (splitOnChar '-' date).map jsInt
  let tc := (splitOnChar ':' time).map jsInt
  let c := civilFromDays (daysFromCivil ⟨dc.getD 0 0, dc.getD 1 0, dc.getD 2 0⟩)
  toString c.year ++ "-" ++ pad2 c.month ++ "-" ++ pad2 c.day ++ "T" ++
    pad2 (tc.getD 0 0) ++ ":" ++ pad2 (tc.getD 1 0) ++ ":00-03:00"

/-- The attendee accumulation in `buildGogArgs`: the fixed owner first,
then each participant whose email is truthy and differs from the owner. -/
def attendeeList (participants : List ParsedParticipant) : List String :=
  OWNER_EMAIL :: participants.filterMap (fun p =>
    match p.email with
    | some e => if !(e == "") && !(e == OWNER_EMAIL) then some e else none
    | none => none)

/-- Source `buildGogArgs`; `.error` is the `throw` on a missing
`start_time` for a timed event. -/
def buildGogArgs (req : CalendarCreateRequest) : Except String (List String) :=
  let event := req.event
  let calId := if req.calendar_id == "" then DEFAULT_CALENDAR_ID else req.calendar_id
  let base := ["calendar", "create", calId, "--account", GOG_ACCOUNT,
               "--json", "--no-input", "--force", "--summary", event.title]
  let timePart : Except String (List String) :=
    if event.all_day then
      .ok ["--all-day", "--from", event.start_date, "--to", event.start_date]
    else if !strTruthy event.start_time then
      .error "start_time is required for non-all-day events"
    else
      let st := event.start_time.getD ""
      let endTime :=
        if strTruthy event.end_time then event.end_time.getD ""
        else computeEndTime st (event.duration_minutes.getD 60)
      .ok ["--from", buildRFC3339 event.start_date st,
           "--to", buildRFC3339 event.start_date endTime]
  match timePart with
  | .error e => .error e
  | .ok tp =>
    .ok (base ++ tp ++
      ["--attendees", strJoin "," (attendeeList event.participants)] ++
      (match event.description with
       | some d => if d == "" then [] else ["--description", d]
       | none => []) ++
      (match event.location with
       | some l => if l == "" then [] else ["--location", l]
       | none => []) ++
      ["--reminder", "popup:30m"])

end CalendarAssistant.Creator

namespace CalendarAssistant.Parser

/-- Source `LLMParserResponse` from `parser.ts` (the shape of the JSON
the LLM returned). -/
structure LLMParserResponse where
  title : Option String
  start_date : Option String
  start_time : Option String
  end_time : Option String
  duration_minutes : Option Int
  all_day : Bool
  participants : List ParsedParticipant
  description : Option String
  location : Option String
  ambiguities : List String
  confidence : ℚ
deriving DecidableEq, Repr

/-- The error-shaped `ParsedEvent` built on empty input and in the
`catch` branch. -/
def emptyErrorEvent (ambiguities : List String) (input : String) : ParsedEvent :=
  { status := .error, confidence := 0, title := none, start_date := none
    start_time := none, end_time := none, duration_minutes := none
    all_day := false, participants := [], description := none, location := none
    ambiguities := ambiguities, raw_input := input }

/-- Source `determineStatus`. -/
def determineStatus (parsed : LLMParserResponse) : ParseStatus :=
  if !parsed.ambiguities.isEmpty then .ambiguous
  else if parsed.confidence < 0.7 then .ambiguous
  else .success

/-- Source `parseEventFromInput`; the outcome of the awaited
`callLLMParser` call is passed in.  Every field is normalised with a
JS `||` default, so the falsy values `""` and `0` collapse to `null`. -/
def parseEventFromInput (input : String)
    (llm : Except String LLMParserResponse) : ParsedEvent :=
  if strTrim input == "" then emptyErrorEvent ["Input vazio"] input
  else
    match llm with
    | .error msg => emptyErrorEvent ["Parse error: " ++ msg] input
    | .ok parsed =>
      { status := determineStatus parsed
        confidence := parsed.confidence
        title := jsOrNull parsed.title
        start_date := jsOrNull parsed.start_date
        start_time := jsOrNull parsed.start_time
        end_time := jsOrNull parsed.end_time
        duration_minutes := jsOrNullInt parsed.duration_minutes
        all_day := parsed.all_day
        participants := parsed.participants
        description := jsOrNull parsed.description
        location := jsOrNull parsed.location
        ambiguities := parsed.ambiguities
        raw_input := input }

end CalendarAssistant.Parser

namespace CalendarAssistant.Bot

/-- Source `TelegramMessage` from `handlers/telegram-calendar.ts` (the bot
always fills `text`). -/
structure TelegramMessage where
  chat_id : String
  user_id : String
  text : String
  message_id : String
deriving DecidableEq, Repr

structure TgButton where
  text : String
  callback_data : String
deriving DecidableEq, Repr

/-- Source `TelegramResponse` (the fields the bot loop reads). -/
structure TelegramResponse where
  chat_id : String
  text : String
  buttons : Option (List TgButton) := none
deriving DecidableEq, Repr

structure TgChat where
  id : Int
deriving DecidableEq, Repr

structure TgUser where
  id : Int
deriving DecidableEq, Repr

/-- An incoming Telegram `message` object (the fields `handleUpdate` reads). -/
structure TgMsg where
  chat : TgChat
  fromUser : TgUser
  text : Option String
  message_id : Int
deriving DecidableEq, Repr

/-- An incoming `callback_query` object. -/
structure TgCallbackQuery where
  id : String
  data : String
  message : TgMsg
deriving DecidableEq, Repr

/-- An incoming update. -/
structure TgUpdate where
  update_id : Int
  message : Option TgMsg := none
  callback_query : Option TgCallbackQuery := none
deriving DecidableEq, Repr

/-- The observable actions `handleUpdate` can take, beyond its cache
mutation (console logging is not an observable action). -/
inductive BotEffect where
  | sendMsg (chatId text : String) (buttons : Option (List TgButton))
  | answerCb (queryId text : String)
  | pipelineParse (msg : TelegramMessage)
  | confirmCreate (chatId eventId : String)
  | cancelCall (chatId eventId : String)
deriving DecidableEq, Repr

/-- The `eventCache` map (`event_id → \x7b message, timestamp \x7d`; only the
message is ever read back). -/
abbrev Cache := List (String × TelegramMessage)

/-- Results of the awaited external calls, passed in as an environment:
`pipeline` is `handleTelegramInput`, `confirm` is `handleConfirmation`,
`nowMs` is `Date.now()`. -/
structure BotEnv where
  pipeline : TelegramMessage → TelegramResponse
  confirm : String → String → TelegramResponse
  nowMs : Int

/-- Source `a || b` on the two optional numeric chat ids (`0` is falsy). -/
def jsOrInt (a b : Option Int) : Option Int :=
  match a with
  | some x => if x == 0 then b else some x
  | none => b

/-- Source `update.message?.chat.id || update.callback_query?.message.chat.id`. -/
def chatIdOf (u : TgUpdate) : Option Int :=
  jsOrInt (u.message.map (fun m => m.chat.id))
    (u.callback_query.map (fun c => c.message.chat.id))

/-- The `update.message` branch of `handleUpdate`'s `try` block. -/
def messageStep (env : BotEnv) (cid : Int) (cache : Cache) (m : TgMsg) :
    List BotEffect × Cache :=
  let telegramMsg : TelegramMessage :=
    { chat_id := toString cid, user_id := toString m.fromUser.id
      text := m.text.getD "", message_id := toString m.message_id }
  let response := env.pipeline telegramMsg
  let fx := [BotEffect.pipelineParse telegramMsg,
             BotEffect.sendMsg response.chat_id response.text response.buttons]
  match response.buttons with
  | none => (fx, cache)
  | some _ =>
    let eventId := toString cid ++ "_" ++ toString env.nowMs
    (fx, mapSet cache eventId telegramMsg)

/-- The `update.callback_query` branch of `handleUpdate`'s `try` block. -/
def callbackStep (env : BotEnv) (cid : Int) (cache : Cache) (cq : TgCallbackQuery) :
    List BotEffect × Cache :=
  if strStartsWith cq.data "confirm_" then
    let eventId := strDrop cq.data 8
    match mapGet cache eventId with
    | none =>
      ([BotEffect.answerCb cq.id "⏰ Preview expirou. Envie o evento novamente.",
        BotEffect.sendMsg (toString cid)
          "⏰ Preview expirou. Por favor, envie o evento novamente." none], cache)
    | some cached =>
      let response := env.confirm (toString cid) eventId
      ([BotEffect.answerCb cq.id "✅ Criando evento...",
        BotEffect.pipelineParse cached,
        BotEffect.confirmCreate (toString cid) eventId,
        BotEffect.sendMsg response.chat_id response.text none],
       mapDelete cache eventId)
  else if strStartsWith cq.data "cancel_" then
    let eventId := strDrop cq.data 7
    ([BotEffect.answerCb cq.id "❌ Cancelado",
      BotEffect.cancelCall (toString cid) eventId,
      BotEffect.sendMsg (toString cid) "❌ Evento cancelado." none],
     mapDelete cache eventId)
  else if strStartsWith cq.data "edit_" then
    ([BotEffect.answerCb cq.id "✏️ Editar ainda não implementado",
      BotEffect.sendMsg (toString cid)
        "✏️ Editar ainda não implementado. Envie um novo comando." none], cache)
  else ([], cache)

/-- Source `handleUpdate` from `src/bot.ts`: resolve the chat id, drop
the update when it is missing or not the single allowed chat, otherwise
run the message branch and then the callback branch. -/
def handleUpdate (env : BotEnv) (allowedChatId : String) (cache : Cache)
    (u : TgUpdate) : List BotEffect × Cache :=
  match chatIdOf u with
  | none => ([], cache)
  | some cid =>
    if cid == 0 then ([], cache)
    else if !(toString cid == allowedChatId) then ([], cache)
    else
      let afterMsg :=
        match u.message with
        | none => ([], cache)
        | some m => messageStep env cid cache m
      match u.callback_query with
      | none => afterMsg
      | some cq =>
        let afterCb := callbackStep env cid afterMsg.2 cq
        (afterMsg.1 ++ afterCb.1, afterCb.2)

end CalendarAssistant.Bot

namespace CalendarAssistant

/-! ## Concrete inputs used by the claim theorems and witnesses -/

/-- Candidate timed event 14:00–15:00 (touches the next event exactly). -/
def evTouchCand : ValidatedEvent :=
  { title := "Alinhamento", start_date := "2026-02-25", start_time := some "14:00"
    end_time := some "15:00", duration_minutes := some 60, all_day := false
    participants := [], description := none, location := none }

/-- Existing calendar event 15:00–16:00. -/
def evExisting1500 : ConflictDetector.CalendarEvent :=
  { id := "g1", title := "Review"
    start := { dateTime := some "2026-02-25T15:00:00-03:00" }
    «end» := { dateTime := some "2026-02-25T16:00:00-03:00" } }

/-- Candidate timed event 14:15–14:45 (inside the existing 14:00–15:00). -/
def evInsideCand : ValidatedEvent :=
  { title := "Standup", start_date := "2026-02-25", start_time := some "14:15"
    end_time := some "14:45", duration_minutes := some 30, all_day := false
    participants := [], description := none, location := none }

/-- Existing calendar event 14:00–15:00. -/
def evExisting1400 : ConflictDetector.CalendarEvent :=
  { id := "g2", title := "Planejamento"
    start := { dateTime := some "2026-02-25T14:00:00-03:00" }
    «end» := { dateTime := some "2026-02-25T15:00:00-03:00" } }

/-- A parsed candidate whose start_date lies years in the past. -/
def candRetro : ParsedEvent :=
  { status := .success, confidence := 0.95, title := some "Reunião"
    start_date := some "2020-01-01", start_time := some "14:30", end_time := none
    duration_minutes := none, all_day := false, participants := []
    description := none, location := none, ambiguities := []
    raw_input := "Reunião 01/01/2020 14:30" }

/-- A parsed candidate whose start_date names the non-existent Feb 30. -/
def candFeb30 : ParsedEvent :=
  { status := .success, confidence := 0.9, title := some "Reunião"
    start_date := some "2026-02-30", start_time := some "14:30", end_time := none
    duration_minutes := none, all_day := false, participants := []
    description := none, location := none, ambiguities := []
    raw_input := "Reunião 30/02 14:30" }

/-- A well-shaped LLM response carrying a legitimate zero duration. -/
def respZeroDur : Parser.LLMParserResponse :=
  { title := some "Corrida", start_date := some "2026-03-01", start_time := some "07:00"
    end_time := none, duration_minutes := some 0, all_day := false, participants := []
    description := none, location := none, ambiguities := [], confidence := 0.95 }

/-- A base undo record (its `undo_deadline` field is recomputed by `add`). -/
def stListed : UndoStore.UndoState :=
  { google_event_id := "gevt1", calendar_id := "primary", event_title := "Reunião"
    created_at := 1000, undo_deadline := 0 }

/-- An undo record whose deadline, 120000, is long past. -/
def stExpired : UndoStore.UndoState :=
  { google_event_id := "gevt9", calendar_id := "primary", event_title := "Expirado"
    created_at := 0, undo_deadline := 120000 }

end CalendarAssistant

namespace CalendarAssistant

/-! ## Map lemmas -/

theorem mapGet_mapDelete {α : Type} (m : List (String × α)) (k : String) :
    mapGet (mapDelete m k) k = none := by
  induction m with
  | nil => rfl
  | cons p rest ih =>
    simp only [mapDelete, List.filter_cons] at *
    by_cases hp : (p.1 == k) = true
    · simpa [hp] using ih
    · simpa [hp, mapGet] using ih

theorem mapGet_mapSet {α : Type} (m : List (String × α)) (k : String) (v : α) :
    mapGet (mapSet m k v) k = some v := by
  induction m with
  | nil => simp [mapSet, mapGet]
  | cons p rest ih =>
    by_cases hp : (p.1 == k) = true
    · simp [mapSet, hp, mapGet]
    · simp [mapSet, hp, mapGet, ih]

end CalendarAssistant

namespace CalendarAssistant

/-! ## Claim theorems -/

/-- C1: two timed events, as half-open clock intervals in minutes since
midnight, conflict exactly when `candidate_start < existing_end` and
`existing_start < candidate_end`; an exact touch ([14:00,15:00) against
[15:00,16:00)) is not a conflict, while [14:15,14:45) inside
[14:00,15:00) is. -/
theorem conflict_overlap_halfopen_rule :
    (∀ cs ce es ee : Int,
        ConflictDetector.isOverlapping cs ce es ee = true ↔ (cs < ee ∧ es < ce)) ∧
    (ConflictDetector.checkCalendarConflicts evTouchCand
        (.ok [evExisting1500])).has_conflicts = false ∧
    ConflictDetector.findOverlappingEvents evTouchCand [evExisting1500] = [] ∧
    (ConflictDetector.checkCalendarConflicts evInsideCand
        (.ok [evExisting1400])).has_conflicts = true ∧
    (ConflictDetector.findOverlappingEvents evInsideCand [evExisting1400]).map
        (fun c => c.calendar_event_id) = ["g2"] := by
  refine ⟨?_, by decide, by decide, by decide, by decide⟩
  intro cs ce es ee
  simp [ConflictDetector.isOverlapping]

/-- C4: conflict checking is fail-open — when the calendar query (or
anything else inside the `try`) fails, the result is
`\x7bhas_conflicts := false, conflicts := []\x7d`; and in every outcome
`has_conflicts` holds exactly when the conflicts list is non-empty. -/
theorem conflict_failopen_never_blocks :
    (∀ (ev : ValidatedEvent) (msg : String),
        ConflictDetector.checkCalendarConflicts ev (.error msg)
          = { has_conflicts := false, conflicts := [] }) ∧
    (∀ (ev : ValidatedEvent)
        (fetched : Except String (List ConflictDetector.CalendarEvent)),
        (ConflictDetector.checkCalendarConflicts ev fetched).has_conflicts = true
          ↔ (ConflictDetector.checkCalendarConflicts ev fetched).conflicts ≠ []) := by
  constructor
  · intro ev msg
    rfl
  · intro ev fetched
    cases fetched with
    | error e => simp [ConflictDetector.checkCalendarConflicts]
    | ok evs =>
      by_cases h : ev.all_day
      · simp [ConflictDetector.checkCalendarConflicts, h]
      · simp [ConflictDetector.checkCalendarConflicts, h, List.length_pos]

/-- C9 (code bug): `parseEventFromInput` does not preserve a zero
duration — the `parsed.duration_minutes || null` default collapses the
legitimate falsy value 0 to `null`. -/
theorem parser_zero_duration_collapses :
    respZeroDur.duration_minutes = some 0 ∧
    (Parser.parseEventFromInput "Corrida de 0 min amanhã 07:00"
        (.ok respZeroDur)).duration_minutes = none := by
  exact ⟨rfl, rfl⟩

/-- C3 (code bug): a start_date years before today is NOT rejected —
`validateDateRange` labels every past date `retroactive`, the caller
turns that into only the warning `date_retroactive_same_day`, and the
`date_out_of_range` error branch is unreachable, so validation succeeds
(today = 2026-10-12, timezone UTC-3). -/
theorem validator_retroactive_date_only_warns :
    (Validator.validateParsedEvent ⟨2026, 10, 12⟩ 180 candRetro).valid = true ∧
    (Validator.validateParsedEvent ⟨2026, 10, 12⟩ 180 candRetro).errors = [] ∧
    (Validator.validateParsedEvent ⟨2026, 10, 12⟩ 180 candRetro).warnings
      = ["date_retroactive_same_day"] := by
  exact ⟨rfl, rfl, rfl⟩

/-- C8 counterexample: `peek` is not read-only — peeking an expired
entry deletes it, so the stored entries after a peek are not always the
entries before it. -/
theorem undoStore_peek_not_read_only :
    ¬ ((UndoStore.peek [("evt_9", stExpired)] 500000 "evt_9").2
        = [("evt_9", stExpired)]) := by
  decide

end CalendarAssistant

namespace CalendarAssistant

/-- C2: `consume` removes and returns the stored record exactly when the
handle is present and the current time is at most its `undo_deadline`,
and afterwards the handle is never stored; hence after `add`, a first
consume within the window yields the record and any later consume of the
same handle yields none, and a consume strictly after the deadline
yields none even though the entry is still physically present. -/
theorem undoStore_consume_at_most_once :
    (∀ (store : UndoStore.UStore) (now : Int) (hd : String) (e : UndoStore.UndoState),
        ((UndoStore.consume store now hd).1 = some e
          ↔ (mapGet store hd = some e ∧ now ≤ e.undo_deadline))
        ∧ mapGet (UndoStore.consume store now hd).2 hd = none) ∧
    (∀ (store : UndoStore.UStore) (hd : String) (st : UndoStore.UndoState)
        (now₁ now₂ : Int),
        now₁ ≤ st.created_at + UndoStore.UNDO_WINDOW_MS →
        (UndoStore.consume (UndoStore.add store hd st) now₁ hd).1
            = some { st with undo_deadline := st.created_at + UndoStore.UNDO_WINDOW_MS }
        ∧ (UndoStore.consume
              ((UndoStore.consume (UndoStore.add store hd st) now₁ hd).2) now₂ hd).1
            = none) ∧
    (∀ (store : UndoStore.UStore) (now : Int) (hd : String) (e : UndoStore.UndoState),
        mapGet store hd = some e → e.undo_deadline < now →
        (UndoStore.consume store now hd).1 = none) := by
  refine ⟨?_, ?_, ?_⟩
  · intro store now hd e
    cases hm : mapGet store hd with
    | none =>
      constructor
      · simp [UndoStore.consume, hm]
      · simp [UndoStore.consume, hm]
    | some entry =>
      by_cases hlt : entry.undo_deadline < now
      · constructor
        · simp only [UndoStore.consume, hm, if_pos hlt]
          simp
          intro he
          subst he
          omega
        · simp only [UndoStore.consume, hm, if_pos hlt]
          exact mapGet_mapDelete store hd
      · constructor
        · simp only [UndoStore.consume, hm, if_neg hlt]
          constructor
          · intro he
            obtain rfl : entry = e := by simpa using he
            exact ⟨rfl, le_of_not_lt hlt⟩
          · intro ⟨h1, _⟩
            exact h1
        · simp only [UndoStore.consume, hm, if_neg hlt]
          exact mapGet_mapDelete store hd
  · intro store hd st now₁ now₂ hle
    have hget := mapGet_mapSet store hd
      { st with undo_deadline := st.created_at + UndoStore.UNDO_WINDOW_MS }
    have hnl : ¬ (st.created_at + UndoStore.UNDO_WINDOW_MS < now₁) := by omega
    constructor
    · simp [UndoStore.consume, UndoStore.add, hget, hnl]
    · have h2 : (UndoStore.consume (UndoStore.add store hd st) now₁ hd).2
          = mapDelete (UndoStore.add store hd st) hd := by
        simp [UndoStore.consume, UndoStore.add, hget, hnl]
      rw [h2]
      have hnone := mapGet_mapDelete (UndoStore.add store hd st) hd
      simp [UndoStore.consume, hnone]
  · intro store now hd e hm hlt
    simp [UndoStore.consume, hm, hlt]

/-- Witness for C2: concrete runs of `consume` — within the window it
yields the registered record, a second consume yields none, and a
consume strictly after the deadline of a still-present entry yields none. -/
theorem undoStore_consume_at_most_once_witness :
    ((UndoStore.consume (UndoStore.add [] "evt_1" stListed) 5000 "evt_1").1
        = some { stListed with
                  undo_deadline := stListed.created_at + UndoStore.UNDO_WINDOW_MS }
      ∧ (UndoStore.consume
            ((UndoStore.consume (UndoStore.add [] "evt_1" stListed) 5000 "evt_1").2)
            9999999 "evt_1").1 = none)
    ∧ (UndoStore.consume [("evt_9", stExpired)] 500000 "evt_9").1 = none :=
  ⟨undoStore_consume_at_most_once.2.1 [] "evt_1" stListed 5000 9999999 (by decide),
   undoStore_consume_at_most_once.2.2 [("evt_9", stExpired)] 500000 "evt_9" stExpired
     (by decide) (by decide)⟩

/-- C8 (amended): `peek` returns the record exactly when the handle is
present and the current time is at most its deadline, and it leaves the
store unchanged whenever it returns a record or finds no entry — but an
expired entry it finds is removed from the store. -/
theorem undoStore_peek_spec :
    (∀ (store : UndoStore.UStore) (now : Int) (hd : String) (e : UndoStore.UndoState),
        (UndoStore.peek store now hd).1 = some e
          ↔ (mapGet store hd = some e ∧ now ≤ e.undo_deadline)) ∧
    (∀ (store : UndoStore.UStore) (now : Int) (hd : String),
        (UndoStore.peek store now hd).1 ≠ none →
        (UndoStore.peek store now hd).2 = store) ∧
    (∀ (store : UndoStore.UStore) (now : Int) (hd : String),
        mapGet store hd = none → (UndoStore.peek store now hd).2 = store) ∧
    (∀ (store : UndoStore.UStore) (now : Int) (hd : String) (e : UndoStore.UndoState),
        mapGet store hd = some e → e.undo_deadline < now →
        (UndoStore.peek store now hd).2 = mapDelete store hd) := by
  refine ⟨?_, ?_, ?_, ?_⟩
  · intro store now hd e
    cases hm : mapGet store hd with
    | none => simp [UndoStore.peek, hm]
    | some entry =>
      by_cases hlt : entry.undo_deadline < now
      · simp only [UndoStore.peek, hm, if_pos hlt]
        simp
        intro he
        subst he
        omega
      · simp only [UndoStore.peek, hm, if_neg hlt]
        constructor
        · intro he
          obtain rfl : entry = e := by simpa using he
          exact ⟨rfl, le_of_not_lt hlt⟩
        · intro ⟨h1, _⟩
          exact h1
  · intro store now hd hne
    cases hm : mapGet store hd with
    | none => simp [UndoStore.peek, hm]
    | some entry =>
      by_cases hlt : entry.undo_deadline < now
      · exfalso
        apply hne
        simp [UndoStore.peek, hm, hlt]
      · simp [UndoStore.peek, hm, hlt]
  · intro store now hd hm
    simp [UndoStore.peek, hm]
  · intro store now hd e hm hlt
    simp [UndoStore.peek, hm, hlt]

/-- Witness for C8's amended statement: peeking a live entry leaves the
store intact, peeking an expired one deletes it. -/
theorem undoStore_peek_spec_witness :
    ((UndoStore.peek [("evt_1", stExpired)] 1000 "evt_1").2 = [("evt_1", stExpired)])
    ∧ (UndoStore.peek [("evt_9", stExpired)] 500000 "evt_9").2
        = mapDelete [("evt_9", stExpired)] "evt_9" :=
  ⟨undoStore_peek_spec.2.1 [("evt_1", stExpired)] 1000 "evt_1" (by decide),
   undoStore_peek_spec.2.2.2 [("evt_9", stExpired)] 500000 "evt_9" stExpired
     (by decide) (by decide)⟩

end CalendarAssistant

namespace CalendarAssistant

/-- A bot environment with constant collaborator responses (used by the
C5 witness). -/
def envW : Bot.BotEnv :=
  { pipeline := fun m => { chat_id := m.chat_id, text := "ok" }
    confirm := fun c _ => { chat_id := c, text := "ok" }
    nowMs := 1700000000000 }

/-- An update from a chat (id 999) other than the allowed one. -/
def updForeign : Bot.TgUpdate :=
  { update_id := 1
    message := some { chat := ⟨999⟩, fromUser := ⟨5⟩
                      text := some "Reunião amanhã 14:30", message_id := 42 } }

/-- C5: an update whose resolved chat id differs from the configured
allowed chat id is silently dropped by `handleUpdate` — no pipeline
call, no message, no cache mutation. -/
theorem bot_ignores_foreign_chat :
    ∀ (env : Bot.BotEnv) (allowed : String) (cache : Bot.Cache) (u : Bot.TgUpdate)
      (cid : Int),
      Bot.chatIdOf u = some cid → toString cid ≠ allowed →
      Bot.handleUpdate env allowed cache u = ([], cache) := by
  intro env allowed cache u cid hcid hne
  unfold Bot.handleUpdate
  rw [hcid]
  by_cases h0 : (cid == 0) = true
  · simp [h0]
  · have hb : (toString cid == allowed) = false := by
      simpa using hne
    simp [h0, hb]

/-- Witness for C5: a message from chat 999 with allowed chat
7131103597 leaves no effects and an unchanged cache. -/
theorem bot_ignores_foreign_chat_witness :
    Bot.handleUpdate envW "7131103597" [] updForeign = ([], []) :=
  bot_ignores_foreign_chat envW "7131103597" [] updForeign 999 (by decide) (by decide)

/-- The `date_format_invalid` error is pushed by `validateFieldFormats`
whenever the start_date is present but fails `isValidDateFormat`. -/
theorem dfi_mem_fieldFormats (today : Civil) (tz : Int) (p : ParsedEvent) (s : String)
    (hsd : p.start_date = some s) (hs : s ≠ "")
    (hbad : Validator.isValidDateFormat s = false) :
    "date_format_invalid" ∈ (Validator.validateFieldFormats today tz p).1 := by
  have ht : strTruthy (some s) = true := by
    simp [strTruthy, hs]
  unfold Validator.validateFieldFormats
  rw [hsd]
  simp only [Option.getD_some, ht, hbad, Bool.not_false, Bool.true_and, if_true]
  split
  all_goals split
  all_goals simp [List.mem_append]
  all_goals split
  all_goals simp [List.mem_append]

/-- C6: a start_date string that matches the calendar grammar but whose
(year, month, day) do not survive the `Date` round-trip (a non-existent
day such as "2026-02-30") makes the validator report Invalid with
`date_format_invalid`, for any candidate with status success and no
ambiguities. -/
theorem validator_rejects_nonreal_date :
    ∀ (today : Civil) (tz : Int) (p : ParsedEvent) (s : String) (y m d : Int),
      p.status = .success → p.ambiguities = [] → p.start_date = some s →
      Validator.datePatternOk s = true →
      Validator.dateComponents s = (y, m, d) →
      civilFromDays (daysFromCivil ⟨y, m, d⟩) ≠ (⟨y, m, d⟩ : Civil) →
      (Validator.validateParsedEvent today tz p).valid = false
      ∧ (Validator.validateParsedEvent today tz p).status = .invalid
      ∧ "date_format_invalid" ∈ (Validator.validateParsedEvent today tz p).errors := by
  intro today tz p s y m d hst hamb hsd hpat hcomp hne
  have hs : s ≠ "" := by
    intro h
    subst h
    simp [Validator.datePatternOk, splitOnChar, splitOnCharAux] at hpat
  have hbad : Validator.isValidDateFormat s = false := by
    unfold Validator.isValidDateFormat
    rw [hpat]
    simp only [Bool.not_true, Bool.false_eq_true, if_false]
    rw [hcomp]
    by_cases hr : (m < 1 || m > 12 || d < 1 || d > 31) = true
    · simp [hr]
    · simp only [hr, Bool.false_eq_true, if_false]
      rcases hr2 : civilFromDays (daysFromCivil ⟨y, m, d⟩) with ⟨ry, rm, rd⟩
      rw [hr2] at hne
      by_contra hb
      simp only [Bool.not_eq_false, Bool.and_eq_true, beq_iff_eq] at hb
      obtain ⟨⟨h1, h2⟩, h3⟩ := hb
      exact hne (by simp [h1, h2, h3])
  have hmem := dfi_mem_fieldFormats today tz p s hsd hs hbad
  have hmem2 : "date_format_invalid" ∈
      Validator.validateRequiredFields p ++ (Validator.validateFieldFormats today tz p).1
        ++ (Validator.validateLogicalConsistency p).1 := by
    simp [List.mem_append, hmem]
  have hnonempty : (Validator.validateRequiredFields p
      ++ (Validator.validateFieldFormats today tz p).1
      ++ (Validator.validateLogicalConsistency p).1).isEmpty = false := by
    rcases hcase : Validator.validateRequiredFields p
        ++ (Validator.validateFieldFormats today tz p).1
        ++ (Validator.validateLogicalConsistency p).1 with _ | ⟨a, l⟩
    · rw [hcase] at hmem2
      simp at hmem2
    · simp
  unfold Validator.validateParsedEvent
  simp only [hst, hamb, List.isEmpty_nil, Bool.not_true, Bool.false_eq_true, if_false,
    hnonempty, Bool.not_false, if_true]
  refine ⟨?_, ?_, ?_⟩
  · simp
  · simp
  · simpa using hmem2

/-- Witness for C6: the candidate with start_date "2026-02-30" is
rejected with `date_format_invalid` (the round-trip lands on Mar 2). -/
theorem validator_rejects_nonreal_date_witness :
    (Validator.validateParsedEvent ⟨2026, 2, 26⟩ 180 candFeb30).valid = false
    ∧ (Validator.validateParsedEvent ⟨2026, 2, 26⟩ 180 candFeb30).status = .invalid
    ∧ "date_format_invalid" ∈ (Validator.validateParsedEvent ⟨2026, 2, 26⟩ 180 candFeb30).errors :=
  validator_rejects_nonreal_date ⟨2026, 2, 26⟩ 180 candFeb30 "2026-02-30" 2026 2 30
    (by decide) (by decide) (by decide) (by decide) (by decide) (by decide)

end CalendarAssistant

namespace CalendarAssistant

/-- Participant without a resolved email. -/
def pNullMail : ParsedParticipant := { name := "Maria", email := none, resolved := false }

/-- Participant whose resolved email is the owner's own address. -/
def pOwnerMail : ParsedParticipant :=
  { name := "João", email := some Creator.OWNER_EMAIL, resolved := true }

/-- Participant with an ordinary resolved email. -/
def pMaria : ParsedParticipant :=
  { name := "Maria", email := some "maria@example.com", resolved := true }

/-- Creation request for a timed event with a start time and no end time
(used by the C7 witness). -/
def reqEndW : Creator.CalendarCreateRequest :=
  { event := { title := "Reunião", start_date := "2026-02-22", start_time := some "23:45"
               end_time := none, duration_minutes := some 30, all_day := false
               participants := [], description := none, location := none }
    event_id := "evt_88", calendar_id := "primary", owner_email := Creator.OWNER_EMAIL }

/-- Creation request for an all-day event with a mixed participant list
(used by the C10 witness). -/
def reqW : Creator.CalendarCreateRequest :=
  { event := { title := "Feriado", start_date := "2026-03-05", start_time := none
               end_time := none, duration_minutes := none, all_day := true
               participants := [pNullMail, pOwnerMail, pMaria]
               description := none, location := none }
    event_id := "evt_77", calendar_id := "primary", owner_email := Creator.OWNER_EMAIL }

/-- The argument list `buildGogArgs` produces for `reqW`. -/
def argsW : List String :=
  ["calendar", "create", "primary", "--account", "mepoupz@gmail.com", "--json",
   "--no-input", "--force", "--summary", "Feriado", "--all-day", "--from",
   "2026-03-05", "--to", "2026-03-05", "--attendees",
   "jgcalice@gmail.com,maria@example.com", "--reminder", "popup:30m"]

/-- C7: for a timed validated event with a start time and no end time,
the creator's `--to` argument is the RFC3339 instant on the same
start_date whose clock is the start plus `duration_minutes ?? 60`
reduced modulo 24 hours; concretely 14:30 + default 60 gives 15:30 and
23:45 + 30 wraps to 00:15. -/
theorem creator_default_end_time :
    (∀ (req : Creator.CalendarCreateRequest) (st : String),
        req.event.all_day = false → req.event.start_time = some st → st ≠ "" →
        req.event.end_time = none →
        ∃ pre post, Creator.buildGogArgs req = .ok (pre ++
          ["--to", Creator.buildRFC3339 req.event.start_date
            (Creator.computeEndTime st (req.event.duration_minutes.getD 60))] ++ post))
    ∧ Creator.computeEndTime "14:30" 60 = "15:30"
    ∧ Creator.computeEndTime "23:45" 30 = "00:15" := by
  refine ⟨?_, by decide, by decide⟩
  intro req st had hst hne hend
  have ht : strTruthy req.event.start_time = true := by
    rw [hst]
    simp [strTruthy, hne]
  have hte : strTruthy req.event.end_time = false := by
    rw [hend]
    rfl
  refine ⟨["calendar", "create",
      if req.calendar_id == "" then Creator.DEFAULT_CALENDAR_ID else req.calendar_id,
      "--account", Creator.GOG_ACCOUNT, "--json", "--no-input", "--force",
      "--summary", req.event.title,
      "--from", Creator.buildRFC3339 req.event.start_date st],
    ["--attendees", strJoin "," (Creator.attendeeList req.event.participants)] ++
      (match req.event.description with
       | some d => if d == "" then [] else ["--description", d]
       | none => []) ++
      (match req.event.location with
       | some l => if l == "" then [] else ["--location", l]
       | none => []) ++
      ["--reminder", "popup:30m"], ?_⟩
  have hts : strTruthy (some st) = true := by
    simp [strTruthy, hne]
  simp only [Creator.buildGogArgs, had, Bool.false_eq_true, if_false, hst, hend,
    Option.getD_some, hts, Bool.not_true]
  simp [strTruthy, List.append_assoc]

/-- Witness for C7: the concrete request starting 23:45 with duration 30
and the 14:30 + 60 example. -/
theorem creator_default_end_time_witness :
    (∃ pre post, Creator.buildGogArgs reqEndW = .ok (pre ++
        ["--to", Creator.buildRFC3339 reqEndW.event.start_date
          (Creator.computeEndTime "23:45" (reqEndW.event.duration_minutes.getD 60))] ++ post))
    ∧ Creator.computeEndTime "14:30" 60 = "15:30" :=
  ⟨creator_default_end_time.1 reqEndW "23:45" rfl rfl (by decide) rfl,
   creator_default_end_time.2.1⟩

/-- The owner's address never appears among the participant-derived
attendees (they are filtered against it). -/
theorem owner_not_mem_attendee_tail (ps : List ParsedParticipant) :
    Creator.OWNER_EMAIL ∉ ps.filterMap (fun p =>
      match p.email with
      | some e => if !(e == "") && !(e == Creator.OWNER_EMAIL) then some e else none
      | none => none) := by
  intro hmem
  rcases List.mem_filterMap.mp hmem with ⟨p, _, hpe⟩
  rcases he : p.email with _ | e
  · rw [he] at hpe
    simp at hpe
  · rw [he] at hpe
    by_cases h1 : (e == "") = true
    · simp [h1] at hpe
    · by_cases h2 : (e == Creator.OWNER_EMAIL) = true
      · simp [h1, h2] at hpe
      · simp only [h1, h2, Bool.not_false, Bool.and_self, if_true, Option.some.injEq] at hpe
        subst hpe
        simp at h2

/-- C10: every successfully built create command carries an
`--attendees` value built from a list that begins with the owner email,
contains it exactly once, and to which participants with a null email or
the owner's own email contribute nothing. -/
theorem creator_attendees_owner_once :
    (∀ (req : Creator.CalendarCreateRequest) (args : List String),
        Creator.buildGogArgs req = .ok args →
        ∃ pre post, args = pre ++
          ["--attendees", strJoin "," (Creator.attendeeList req.event.participants)] ++ post)
    ∧ (∀ ps, (Creator.attendeeList ps).head? = some Creator.OWNER_EMAIL)
    ∧ (∀ ps, (Creator.attendeeList ps).count Creator.OWNER_EMAIL = 1)
    ∧ (∀ (p : ParsedParticipant) ps, p.email = none →
        Creator.attendeeList (p :: ps) = Creator.attendeeList ps)
    ∧ (∀ (p : ParsedParticipant) ps, p.email = some Creator.OWNER_EMAIL →
        Creator.attendeeList (p :: ps) = Creator.attendeeList ps) := by
  refine ⟨?_, ?_, ?_, ?_, ?_⟩
  · intro req args h
    simp only [Creator.buildGogArgs] at h
    by_cases had : req.event.all_day = true
    · simp only [had, if_true] at h
      injection h with h
      subst h
      refine ⟨["calendar", "create",
          if req.calendar_id == "" then Creator.DEFAULT_CALENDAR_ID else req.calendar_id,
          "--account", Creator.GOG_ACCOUNT, "--json", "--no-input", "--force",
          "--summary", req.event.title, "--all-day", "--from", req.event.start_date,
          "--to", req.event.start_date],
        (match req.event.description with
         | some d => if d == "" then [] else ["--description", d]
         | none => []) ++
        (match req.event.location with
         | some l => if l == "" then [] else ["--location", l]
         | none => []) ++
        ["--reminder", "popup:30m"], ?_⟩
      simp [List.append_assoc]
    · have had' : req.event.all_day = false := by
        simpa using had
      by_cases hstt : strTruthy req.event.start_time = true
      · simp only [had', Bool.false_eq_true, if_false, hstt, Bool.not_true] at h
        injection h with h
        subst h
        refine ⟨["calendar", "create",
            if req.calendar_id == "" then Creator.DEFAULT_CALENDAR_ID else req.calendar_id,
            "--account", Creator.GOG_ACCOUNT, "--json", "--no-input", "--force",
            "--summary", req.event.title,
            "--from", Creator.buildRFC3339 req.event.start_date (req.event.start_time.getD ""),
            "--to", Creator.buildRFC3339 req.event.start_date
              (if strTruthy req.event.end_time = true then req.event.end_time.getD ""
               else Creator.computeEndTime (req.event.start_time.getD "")
                 (req.event.duration_minutes.getD 60))],
          (match req.event.description with
           | some d => if d == "" then [] else ["--description", d]
           | none => []) ++
          (match req.event.location with
           | some l => if l == "" then [] else ["--location", l]
           | none => []) ++
          ["--reminder", "popup:30m"], ?_⟩
        simp [List.append_assoc]
      · have hstf : strTruthy req.event.start_time = false := by
          simpa using hstt
        simp [had', hstf] at h
  · intro ps
    rfl
  · intro ps
    unfold Creator.attendeeList
    rw [List.count_cons_self]
    rw [List.count_eq_zero.mpr (owner_not_mem_attendee_tail ps)]
  · intro p ps hp
    unfold Creator.attendeeList
    simp [List.filterMap_cons, hp]
  · intro p ps hp
    unfold Creator.attendeeList
    simp [List.filterMap_cons, hp]

/-- Witness for C10: the concrete all-day request, a null-email
participant, and an owner-email participant. -/
theorem creator_attendees_owner_once_witness :
    (∃ pre post, argsW = pre ++
        ["--attendees", strJoin "," (Creator.attendeeList reqW.event.participants)] ++ post)
    ∧ Creator.attendeeList (pNullMail :: [pMaria]) = Creator.attendeeList [pMaria]
    ∧ Creator.attendeeList (pOwnerMail :: [pMaria]) = Creator.attendeeList [pMaria] :=
  ⟨creator_attendees_owner_once.1 reqW argsW rfl,
   creator_attendees_owner_once.2.2.2.1 pNullMail [pMaria] rfl,
   creator_attendees_owner_once.2.2.2.2 pOwnerMail [pMaria] rfl⟩

end CalendarAssistant
